import Mathlib

/-!
Shallow embedding of the fitness-tracker module (`src/homework.py`).

Numbers are modelled as rationals (`ℚ`): every constant of the module
(0.65, 1.38, 0.035, 0.029, 1.1, 2.0, 1000, 60, 18, 20) is exactly
representable, and the module's arithmetic is plain field arithmetic plus
one floor division. Python expressions that can raise at run time
(true division `/` and floor division `//`, which raise
`ZeroDivisionError` on a zero denominator, the dictionary lookup in
`read_package`, which raises `KeyError` on an unknown code, and the
constructor call `custom_class(*data)`, which raises `TypeError` on an
arity mismatch) are modelled in the `Except PyError` monad.
-/

/-- Run-time errors the module can raise: `ZeroDivisionError` from `/` or
`//` with a zero denominator, `KeyError` from the `workouts[workout_type]`
dictionary lookup, `TypeError` from calling a constructor with the wrong
number of positional arguments. -/
inductive PyError where
  | zeroDivisionError
  | keyError
  | typeError
  deriving DecidableEq, Repr

/-- The spec's `UnknownWorkoutKind` error is realized in the code as the
`KeyError` raised by the `workouts[workout_type]` dictionary lookup. -/
def PyError.UnknownWorkoutKind : PyError := PyError.keyError

/-- The spec's `ArityMismatch` error is realized in the code as the
`TypeError` raised by `custom_class(*data)` when `data` has the wrong
number of fields for the resolved constructor. -/
def PyError.ArityMismatch : PyError := PyError.typeError

/-- Checked true division: Python `x / y` raises `ZeroDivisionError`
when `y == 0`. -/
def fdiv (x y : ℚ) : Except PyError ℚ :=
  if y = 0 then Except.error PyError.zeroDivisionError else Except.ok (x / y)

/-- Checked floor division: Python `x // y` on floats yields the floor of
the quotient (truncation toward negative infinity) and raises
`ZeroDivisionError` when `y == 0`. -/
def ffloordiv (x y : ℚ) : Except PyError ℚ :=
  if y = 0 then Except.error PyError.zeroDivisionError
  else Except.ok ((⌊x / y⌋ : ℤ) : ℚ)

/-- The closed set of concrete workout kinds of the module. -/
inductive TrainingKind where
  | running
  | sportsWalking
  | swimming
  deriving DecidableEq, Repr

/-- A bound workout record. The base class `Training` holds
`action`, `duration`, `weight`; `SportsWalking` adds `height`;
`Swimming` adds `length_pool` and `count_pool`. The inheritance
hierarchy is embedded as one closed inductive with a constructor per
concrete class. -/
inductive Training where
  | running (action duration weight : ℚ)
  | sportsWalking (action duration weight height : ℚ)
  | swimming (action duration weight length_pool count_pool : ℚ)
  deriving DecidableEq, Repr

/-- `self.action` (shared base field). -/
def Training.action : Training → ℚ
  | .running a _ _ => a
  | .sportsWalking a _ _ _ => a
  | .swimming a _ _ _ _ => a

/-- `self.duration` (shared base field, hours). -/
def Training.duration : Training → ℚ
  | .running _ d _ => d
  | .sportsWalking _ d _ _ => d
  | .swimming _ d _ _ _ => d

/-- `self.weight` (shared base field, kg). -/
def Training.weight : Training → ℚ
  | .running _ _ w => w
  | .sportsWalking _ _ w _ => w
  | .swimming _ _ w _ _ => w

/-- The concrete class of a record. -/
def Training.kind : Training → TrainingKind
  | .running _ _ _ => .running
  | .sportsWalking _ _ _ _ => .sportsWalking
  | .swimming _ _ _ _ _ => .swimming

/-- `type(self).__name__`, used as the training-type label. -/
def Training.typeName : Training → String
  | .running _ _ _ => "Running"
  | .sportsWalking _ _ _ _ => "SportsWalking"
  | .swimming _ _ _ _ _ => "Swimming"

/-- Class constant `Training.M_IN_KM = 1000.0`. -/
def Training.M_IN_KM : ℚ := 1000

/-- Class constant `LEN_STEP`: `0.65` on `Training`, `Running` and
`SportsWalking`, overridden to `1.38` on `Swimming`. -/
def Training.LEN_STEP : Training → ℚ
  | .running _ _ _ => 0.65
  | .sportsWalking _ _ _ _ => 0.65
  | .swimming _ _ _ _ _ => 1.38

/-- `Running.coef_calorie_1 = 18`. -/
def Running.coef_calorie_1 : ℚ := 18

/-- `Running.coef_calorie_2 = 20`. -/
def Running.coef_calorie_2 : ℚ := 20

/-- `Running.minutes_in_hour = 60`. -/
def Running.minutes_in_hour : ℚ := 60

/-- `SportsWalking.coef_calorie_1 = .035`. -/
def SportsWalking.coef_calorie_1 : ℚ := 0.035

/-- `SportsWalking.coef_calorie_2 = .029`. -/
def SportsWalking.coef_calorie_2 : ℚ := 0.029

/-- `SportsWalking.minutes_in_hour = 60`. -/
def SportsWalking.minutes_in_hour : ℚ := 60

/-- `Swimming.coef_calorie_1 = 1.1`. -/
def Swimming.coef_calorie_1 : ℚ := 1.1

/-- `Swimming.coef_calorie_2 = 2.0`. -/
def Swimming.coef_calorie_2 : ℚ := 2.0

/-- `Training.get_distance`: `self.action * self.LEN_STEP / self.M_IN_KM`.
The denominator is the constant 1000, so this division never raises and
the method is total. No subclass overrides it. -/
def Training.get_distance (t : Training) : ℚ :=
  t.action * t.LEN_STEP / Training.M_IN_KM

/-- `Training.get_mean_speed`, the base-class (default) method:
`self.get_distance() / self.duration`. -/
def Training.get_mean_speed_default (t : Training) : Except PyError ℚ :=
  fdiv t.get_distance t.duration

/-- `Swimming.get_mean_speed`, the override:
`(self.length_pool * self.count_pool) / self.M_IN_KM / self.duration`. -/
def Swimming.get_mean_speed (length_pool count_pool duration : ℚ) :
    Except PyError ℚ :=
  fdiv (length_pool * count_pool / Training.M_IN_KM) duration

/-- Dynamic dispatch of `get_mean_speed`: `Swimming` overrides the
base-class method, `Running` and `SportsWalking` inherit it. -/
def Training.get_mean_speed (t : Training) : Except PyError ℚ :=
  match t with
  | .swimming _ d _ lp cp => Swimming.get_mean_speed lp cp d
  | _ => t.get_mean_speed_default

/-- Dynamic dispatch of `get_spent_calories`, one branch per concrete
class, each transcribing the corresponding `get_spent_calories` body. -/
def Training.get_spent_calories (t : Training) : Except PyError ℚ :=
  match t with
  | .running _ d w => do
      let mean_speed ← t.get_mean_speed
      pure ((Running.coef_calorie_1 * mean_speed - Running.coef_calorie_2)
            * w / Training.M_IN_KM * d * Running.minutes_in_hour)
  | .sportsWalking _ d w h => do
      let mean_speed ← t.get_mean_speed
      let q ← ffloordiv (mean_speed ^ 2) h
      pure ((SportsWalking.coef_calorie_1 * w
             + q * SportsWalking.coef_calorie_2 * w)
            * d * SportsWalking.minutes_in_hour)
  | .swimming _ _ w _ _ => do
      let mean_speed ← t.get_mean_speed
      pure ((mean_speed + Swimming.coef_calorie_1)
            * Swimming.coef_calorie_2 * w)

/-- The summary value constructed by `InfoMessage.__init__`. The numeric
fields are kept at full precision; the `"{0:.3f}"` string rendering of
`InfoMessage`/`get_message` is display-only text and outside the
modelled core. -/
structure InfoMessage where
  training_type : String
  duration : ℚ
  distance : ℚ
  speed : ℚ
  calories : ℚ
  deriving DecidableEq, Repr

/-- `Training.show_training_info`: builds the `InfoMessage` from the
record's type name, duration, distance, mean speed and calories. The
keyword arguments are evaluated in source order, so a division error in
the speed surfaces before one in the calories. -/
def Training.show_training_info (t : Training) : Except PyError InfoMessage := do
  let speed ← t.get_mean_speed
  let calories ← t.get_spent_calories
  pure { training_type := t.typeName, duration := t.duration,
         distance := t.get_distance, speed := speed, calories := calories }

/-- One invocation of the summary step of `main` on a record: it returns
the computed `InfoMessage` together with the record as it stands after
the call. The method reads `self` and mutates nothing, so the record
component is returned unchanged. -/
def runSummary (t : Training) : Except PyError InfoMessage × Training :=
  (t.show_training_info, t)

/-- `read_package`: resolves `workout_type` through the
`{SWM, RUN, WLK}` dictionary (raising `KeyError` on an unknown code)
and then calls the resolved constructor on the unpacked field list
(raising `TypeError` when the arity does not match the constructor). -/
def read_package (workout_type : String) (data : List ℚ) :
    Except PyError Training :=
  if workout_type = "SWM" then
    match data with
    | [a, d, w, lp, cp] => Except.ok (Training.swimming a d w lp cp)
    | _ => Except.error PyError.typeError
  else if workout_type = "RUN" then
    match data with
    | [a, d, w] => Except.ok (Training.running a d w)
    | _ => Except.error PyError.typeError
  else if workout_type = "WLK" then
    match data with
    | [a, d, w, h] => Except.ok (Training.sportsWalking a d w h)
    | _ => Except.error PyError.typeError
  else
    Except.error PyError.keyError


/-! ### Claim theorems -/

/-- C1: For every swimming record (with positive duration, per the data
model), `get_mean_speed` is `(length_pool * count_pool) / 1000 / duration`
while `get_distance` is `action * 1.38 / 1000` — two different geometric
bases — and `get_spent_calories` is `(mean_speed + 1.1) * 2.0 * weight`;
at the record `(720, 1, 80, 25, 40)` the distance is `0.9936`, the mean
speed is `1`, and the calories are `(1 + 1.1) * 2.0 * 80 = 336`. -/
theorem swimming_speed_distance_calories (a d w lp cp : ℚ) (hd : 0 < d) :
    (Training.swimming a d w lp cp).get_mean_speed =
      Except.ok (lp * cp / 1000 / d) ∧
    (Training.swimming a d w lp cp).get_distance = a * 1.38 / 1000 ∧
    (Training.swimming a d w lp cp).get_spent_calories =
      Except.ok ((lp * cp / 1000 / d + 1.1) * 2.0 * w) ∧
    (Training.swimming 720 1 80 25 40).get_distance = 0.9936 ∧
    (Training.swimming 720 1 80 25 40).get_mean_speed = Except.ok 1 ∧
    (Training.swimming 720 1 80 25 40).get_spent_calories =
      Except.ok ((1 + 1.1) * 2.0 * 80) ∧
    ((1 : ℚ) + 1.1) * 2.0 * 80 = 336 := by
  refine ⟨?_, ?_, ?_, ?_, ?_, ?_, ?_⟩ <;>
    norm_num [Training.get_mean_speed, Swimming.get_mean_speed, fdiv,
      Training.get_distance, Training.action, Training.LEN_STEP,
      Training.M_IN_KM, Training.get_spent_calories, Swimming.coef_calorie_1,
      Swimming.coef_calorie_2, Bind.bind, Except.bind, pure, Except.pure,
      hd.ne']

/-- C1 witness: the theorem instantiated at the spec's SWM record
`(720, 1, 80, 25, 40)`. -/
theorem swimming_speed_distance_calories_witness :
    (Training.swimming 720 1 80 25 40).get_mean_speed =
      Except.ok (25 * 40 / 1000 / 1) ∧
    (Training.swimming 720 1 80 25 40).get_distance = 720 * 1.38 / 1000 ∧
    (Training.swimming 720 1 80 25 40).get_spent_calories =
      Except.ok ((25 * 40 / 1000 / 1 + 1.1) * 2.0 * 80) ∧
    (Training.swimming 720 1 80 25 40).get_distance = 0.9936 ∧
    (Training.swimming 720 1 80 25 40).get_mean_speed = Except.ok 1 ∧
    (Training.swimming 720 1 80 25 40).get_spent_calories =
      Except.ok ((1 + 1.1) * 2.0 * 80) ∧
    ((1 : ℚ) + 1.1) * 2.0 * 80 = 336 :=
  swimming_speed_distance_calories 720 1 80 25 40 (by norm_num)

/-- C3 counterexample: at the RUN record `(15000, 1, 75)` the spent
calories are NOT `700.875` (they are `699.75`: the claimed expression
`(18 * 9.75 - 20) * 75 / 1000 * 1 * 60` itself evaluates to `699.75`). -/
theorem running_example_calories_not_found :
    (Training.running 15000 1 75).get_spent_calories ≠ Except.ok 700.875 ∧
    ((18 : ℚ) * 9.75 - 20) * 75 / 1000 * 1 * 60 = 699.75 := by
  constructor <;>
    norm_num [Training.get_spent_calories, Training.get_mean_speed,
      Training.get_mean_speed_default, fdiv, Training.get_distance,
      Training.action, Training.duration, Training.LEN_STEP, Training.M_IN_KM,
      Running.coef_calorie_1, Running.coef_calorie_2, Running.minutes_in_hour,
      Bind.bind, Except.bind, pure, Except.pure]

/-- C3 (amended): for every running record with positive duration,
`get_spent_calories` is `(18 * mean_speed - 20) * weight / 1000 *
duration * 60`; the record `(15000, 1, 75)` yields distance `9.75`,
mean speed `9.75`, and calories `699.75` (not `700.875`). -/
theorem running_calories_formula (a d w : ℚ) (hd : 0 < d) :
    (Training.running a d w).get_spent_calories =
      Except.ok ((18 * ((Training.running a d w).get_distance / d) - 20)
        * w / 1000 * d * 60) ∧
    (Training.running 15000 1 75).get_distance = 9.75 ∧
    (Training.running 15000 1 75).get_mean_speed = Except.ok 9.75 ∧
    (Training.running 15000 1 75).get_spent_calories = Except.ok 699.75 := by
  refine ⟨?_, ?_, ?_, ?_⟩ <;>
    norm_num [Training.get_spent_calories, Training.get_mean_speed,
      Training.get_mean_speed_default, fdiv, Training.get_distance,
      Training.action, Training.duration, Training.LEN_STEP, Training.M_IN_KM,
      Running.coef_calorie_1, Running.coef_calorie_2, Running.minutes_in_hour,
      Bind.bind, Except.bind, pure, Except.pure, hd.ne']

/-- C3 witness: the amended theorem instantiated at the RUN record
`(15000, 1, 75)`. -/
theorem running_calories_formula_witness :
    (Training.running 15000 1 75).get_spent_calories =
      Except.ok ((18 * ((Training.running 15000 1 75).get_distance / 1) - 20)
        * 75 / 1000 * 1 * 60) ∧
    (Training.running 15000 1 75).get_distance = 9.75 ∧
    (Training.running 15000 1 75).get_mean_speed = Except.ok 9.75 ∧
    (Training.running 15000 1 75).get_spent_calories = Except.ok 699.75 :=
  running_calories_formula 15000 1 75 (by norm_num)

/-- C5 counterexample: dispatching the RUN record `(15000, 0, 75)` —
whose duration `0` violates `durationHours > 0` — succeeds and returns
the constructed record: construction performs no duration validation
and raises no error. -/
theorem construction_accepts_zero_duration :
    read_package "RUN" [15000, 0, 75] =
      Except.ok (Training.running 15000 0 75) ∧
    (Training.running 15000 0 75).duration ≤ 0 := by
  exact ⟨rfl, by norm_num [Training.duration]⟩

/-- C5 (amended): constructing a record with `durationHours ≤ 0` is NOT
rejected at construction time — `read_package` and the constructors
accept any duration — and the fault is instead deferred to formula
evaluation: a record with duration `0` raises `ZeroDivisionError` when
its mean speed is computed. -/
theorem duration_fault_deferred :
    (∀ a d w : ℚ, read_package "RUN" [a, d, w] =
      Except.ok (Training.running a d w)) ∧
    (∀ t : Training, t.duration = 0 →
      t.get_mean_speed = Except.error PyError.zeroDivisionError) := by
  constructor
  · intro a d w
    rfl
  · intro t ht
    cases t <;>
      simp_all [Training.get_mean_speed, Training.get_mean_speed_default,
        Swimming.get_mean_speed, fdiv, Training.duration]

/-- C5 witness: the amended theorem instantiated at the RUN record
`(15000, 0, 75)`. -/
theorem duration_fault_deferred_witness :
    read_package "RUN" [15000, 0, 75] =
      Except.ok (Training.running 15000 0 75) ∧
    (Training.running 15000 0 75).get_mean_speed =
      Except.error PyError.zeroDivisionError :=
  ⟨duration_fault_deferred.1 15000 0 75,
   duration_fault_deferred.2 (Training.running 15000 0 75)
     (by norm_num [Training.duration])⟩

/-- C6: for every record, `get_distance` is `action * LEN_STEP / 1000`
with the kind-specific step length: `0.65` for running and walking,
`1.38` for swimming. -/
theorem distance_step_length (a d w h lp cp : ℚ) :
    (Training.running a d w).get_distance = a * 0.65 / 1000 ∧
    (Training.sportsWalking a d w h).get_distance = a * 0.65 / 1000 ∧
    (Training.swimming a d w lp cp).get_distance = a * 1.38 / 1000 ∧
    (∀ t : Training, t.get_distance = t.action * t.LEN_STEP / 1000) := by
  refine ⟨?_, ?_, ?_, fun t => ?_⟩ <;>
    norm_num [Training.get_distance, Training.action, Training.LEN_STEP,
      Training.M_IN_KM]

/-- C7: the default (base-class) mean speed is `get_distance / duration`,
defined — returning `Except.ok` rather than a `ZeroDivisionError` —
whenever `0 < duration`, and undefined (`ZeroDivisionError`) at
`duration = 0`; running and walking records use this default. -/
theorem mean_speed_default_defined (t : Training) :
    (0 < t.duration →
      t.get_mean_speed_default = Except.ok (t.get_distance / t.duration)) ∧
    (t.duration = 0 →
      t.get_mean_speed_default = Except.error PyError.zeroDivisionError) ∧
    (t.kind ≠ TrainingKind.swimming →
      t.get_mean_speed = t.get_mean_speed_default) := by
  refine ⟨fun hd => ?_, fun hd => ?_, fun hk => ?_⟩
  · simp [Training.get_mean_speed_default, fdiv, hd.ne']
  · simp [Training.get_mean_speed_default, fdiv, hd]
  · cases t <;> simp_all [Training.get_mean_speed, Training.kind]

/-- C7 witness: the theorem instantiated at the records
`(15000, 1, 75)` (positive duration) and `(15000, 0, 75)` (zero
duration). -/
theorem mean_speed_default_defined_witness :
    (Training.running 15000 1 75).get_mean_speed_default =
      Except.ok ((Training.running 15000 1 75).get_distance /
        (Training.running 15000 1 75).duration) ∧
    (Training.running 15000 0 75).get_mean_speed_default =
      Except.error PyError.zeroDivisionError ∧
    (Training.running 15000 1 75).get_mean_speed =
      (Training.running 15000 1 75).get_mean_speed_default :=
  ⟨(mean_speed_default_defined (Training.running 15000 1 75)).1
     (by norm_num [Training.duration]),
   (mean_speed_default_defined (Training.running 15000 0 75)).2.1
     (by norm_num [Training.duration]),
   (mean_speed_default_defined (Training.running 15000 1 75)).2.2
     (by simp [Training.kind])⟩

/-- C8: the summary computation is a pure function of the record: one
invocation leaves the record unchanged, and computing the summary a
second time from the returned record yields the identical result. -/
theorem summary_pure_idempotent (t : Training) :
    (runSummary t).2 = t ∧
    (runSummary ((runSummary t).2)).1 = (runSummary t).1 :=
  ⟨rfl, rfl⟩

/-- Helper: closed form of the running calorie method for a nonzero
duration. -/
theorem running_calories_eq (a d w : ℚ) (hd : d ≠ 0) :
    (Training.running a d w).get_spent_calories =
      Except.ok ((18 * ((Training.running a d w).get_distance / d) - 20)
        * w / 1000 * d * 60) := by
  norm_num [Training.get_spent_calories, Training.get_mean_speed,
    Training.get_mean_speed_default, fdiv, Training.get_distance,
    Training.action, Training.duration, Training.LEN_STEP, Training.M_IN_KM,
    Running.coef_calorie_1, Running.coef_calorie_2, Running.minutes_in_hour,
    Bind.bind, Except.bind, pure, Except.pure, hd]

/-- Helper: closed form of the walking calorie method for nonzero
duration and height. -/
theorem walking_calories_eq (a d w h : ℚ) (hd : d ≠ 0) (hh : h ≠ 0) :
    (Training.sportsWalking a d w h).get_spent_calories =
      Except.ok ((0.035 * w +
        ((⌊((Training.sportsWalking a d w h).get_distance / d) ^ 2 / h⌋ : ℤ) : ℚ)
          * 0.029 * w) * d * 60) := by
  norm_num [Training.get_spent_calories, Training.get_mean_speed,
    Training.get_mean_speed_default, fdiv, ffloordiv, Training.get_distance,
    Training.action, Training.duration, Training.LEN_STEP, Training.M_IN_KM,
    SportsWalking.coef_calorie_1, SportsWalking.coef_calorie_2,
    SportsWalking.minutes_in_hour, Bind.bind, Except.bind, pure, Except.pure,
    hd, hh]

/-- C2: for every walking record with positive duration (and positive
height, per the data model), `get_spent_calories` is
`(0.035 * weight + ⌊mean_speed ^ 2 / height⌋ * 0.029 * weight) *
duration * 60`, the floor truncating the exact quotient toward negative
infinity; the record `(9000, 1, 75, 180)` yields distance `5.85` and
mean speed `5.85`. -/
theorem walking_calories_formula (a d w h : ℚ) (hd : 0 < d) (hh : 0 < h) :
    (Training.sportsWalking a d w h).get_spent_calories =
      Except.ok ((0.035 * w +
        ((⌊((Training.sportsWalking a d w h).get_distance / d) ^ 2 / h⌋ : ℤ) : ℚ)
          * 0.029 * w) * d * 60) ∧
    (Training.sportsWalking 9000 1 75 180).get_distance = 5.85 ∧
    (Training.sportsWalking 9000 1 75 180).get_mean_speed = Except.ok 5.85 ∧
    (Training.sportsWalking 9000 1 75 180).get_spent_calories =
      Except.ok ((0.035 * 75 + ((⌊(5.85 : ℚ) ^ 2 / 180⌋ : ℤ) : ℚ)
        * 0.029 * 75) * 1 * 60) := by
  refine ⟨walking_calories_eq a d w h hd.ne' hh.ne', ?_, ?_, ?_⟩ <;>
    norm_num [Training.get_mean_speed, Training.get_mean_speed_default, fdiv,
      ffloordiv, Training.get_distance, Training.action, Training.duration,
      Training.LEN_STEP, Training.M_IN_KM, Training.get_spent_calories,
      SportsWalking.coef_calorie_1, SportsWalking.coef_calorie_2,
      SportsWalking.minutes_in_hour, Bind.bind, Except.bind, pure, Except.pure]

/-- C2 witness: the theorem instantiated at the WLK record
`(9000, 1, 75, 180)`. -/
theorem walking_calories_formula_witness :
    (Training.sportsWalking 9000 1 75 180).get_spent_calories =
      Except.ok ((0.035 * 75 +
        ((⌊((Training.sportsWalking 9000 1 75 180).get_distance / 1) ^ 2 / 180⌋ : ℤ) : ℚ)
          * 0.029 * 75) * 1 * 60) ∧
    (Training.sportsWalking 9000 1 75 180).get_distance = 5.85 ∧
    (Training.sportsWalking 9000 1 75 180).get_mean_speed = Except.ok 5.85 ∧
    (Training.sportsWalking 9000 1 75 180).get_spent_calories =
      Except.ok ((0.035 * 75 + ((⌊(5.85 : ℚ) ^ 2 / 180⌋ : ℤ) : ℚ)
        * 0.029 * 75) * 1 * 60) :=
  walking_calories_formula 9000 1 75 180 (by norm_num) (by norm_num)

/-- C9: for every walking record with positive duration and height whose
squared mean speed is below the height, the floor term vanishes and the
calories are exactly `0.035 * weight * duration * 60`, independent of
`action`; the WLK record `(9000, 1, 75, 180)` yields exactly `157.5`. -/
theorem walking_low_speed_calories (a d w h : ℚ) (hd : 0 < d) (hh : 0 < h)
    (hs : ((Training.sportsWalking a d w h).get_distance / d) ^ 2 < h) :
    (Training.sportsWalking a d w h).get_spent_calories =
      Except.ok (0.035 * w * d * 60) ∧
    (Training.sportsWalking 9000 1 75 180).get_spent_calories =
      Except.ok 157.5 := by
  constructor
  · rw [walking_calories_eq a d w h hd.ne' hh.ne']
    have hfloor :
        ⌊((Training.sportsWalking a d w h).get_distance / d) ^ 2 / h⌋ = (0 : ℤ) := by
      rw [Int.floor_eq_zero_iff, Set.mem_Ico]
      exact ⟨div_nonneg (sq_nonneg _) hh.le, (div_lt_one hh).mpr hs⟩
    rw [hfloor]
    norm_num
  · norm_num [Training.get_spent_calories, Training.get_mean_speed,
      Training.get_mean_speed_default, fdiv, ffloordiv, Training.get_distance,
      Training.action, Training.duration, Training.LEN_STEP, Training.M_IN_KM,
      SportsWalking.coef_calorie_1, SportsWalking.coef_calorie_2,
      SportsWalking.minutes_in_hour, Bind.bind, Except.bind, pure, Except.pure]

/-- C9 witness: the theorem instantiated at the WLK record
`(9000, 1, 75, 180)`, whose squared mean speed `34.2225` is below the
height `180`. -/
theorem walking_low_speed_calories_witness :
    (Training.sportsWalking 9000 1 75 180).get_spent_calories =
      Except.ok (0.035 * 75 * 1 * 60) ∧
    (Training.sportsWalking 9000 1 75 180).get_spent_calories =
      Except.ok 157.5 :=
  walking_low_speed_calories 9000 1 75 180 (by norm_num) (by norm_num)
    (by norm_num [Training.get_distance, Training.action, Training.LEN_STEP,
      Training.M_IN_KM])

/-- C10: a running record can satisfy every stated precondition
(`action ≥ 0`, `duration > 0`, `weight > 0`) and still burn a negative
number of calories: whenever the mean speed is below `20/18` km/h the
result is negative, and the record `(1000, 1, 75)` yields `-37.35`. -/
theorem running_calories_negative (a d w : ℚ) (_ha : 0 ≤ a) (hd : 0 < d)
    (hw : 0 < w)
    (hs : (Training.running a d w).get_distance / d < 20 / 18) :
    (∃ c, (Training.running a d w).get_spent_calories = Except.ok c ∧ c < 0) ∧
    (Training.running 1000 1 75).get_spent_calories = Except.ok (-37.35) := by
  constructor
  · refine ⟨_, running_calories_eq a d w hd.ne', ?_⟩
    have h1 : 18 * ((Training.running a d w).get_distance / d) - 20 < 0 := by
      linarith
    have h2 : (18 * ((Training.running a d w).get_distance / d) - 20) * w < 0 :=
      mul_neg_of_neg_of_pos h1 hw
    have h3 : (18 * ((Training.running a d w).get_distance / d) - 20)
        * w / 1000 < 0 := by
      linarith
    have h4 : (18 * ((Training.running a d w).get_distance / d) - 20)
        * w / 1000 * d < 0 := mul_neg_of_neg_of_pos h3 hd
    linarith
  · norm_num [Training.get_spent_calories, Training.get_mean_speed,
      Training.get_mean_speed_default, fdiv, Training.get_distance,
      Training.action, Training.duration, Training.LEN_STEP, Training.M_IN_KM,
      Running.coef_calorie_1, Running.coef_calorie_2, Running.minutes_in_hour,
      Bind.bind, Except.bind, pure, Except.pure]

/-- C10 witness: the theorem instantiated at the record `(1000, 1, 75)`,
whose mean speed `0.65` is below `20/18`. -/
theorem running_calories_negative_witness :
    (∃ c, (Training.running 1000 1 75).get_spent_calories = Except.ok c ∧
      c < 0) ∧
    (Training.running 1000 1 75).get_spent_calories = Except.ok (-37.35) :=
  running_calories_negative 1000 1 75 (by norm_num) (by norm_num) (by norm_num)
    (by norm_num [Training.get_distance, Training.action, Training.LEN_STEP,
      Training.M_IN_KM])

/-- C4: `read_package` fails with the `UnknownWorkoutKind` error
(`KeyError`) on every code outside `{SWM, RUN, WLK}` regardless of the
fields; fails with the `ArityMismatch` error (`TypeError`) when a
recognized code gets the wrong number of fields (RUN needs 3, WLK 4,
SWM 5); and on a recognized code with the correct arity it never fails
and returns a record of the matching concrete kind. -/
theorem read_package_dispatch :
    (∀ wt : String, wt ∉ (["SWM", "RUN", "WLK"] : List String) →
      ∀ data : List ℚ,
        read_package wt data = Except.error PyError.UnknownWorkoutKind) ∧
    (∀ data : List ℚ, data.length ≠ 3 →
      read_package "RUN" data = Except.error PyError.ArityMismatch) ∧
    (∀ data : List ℚ, data.length ≠ 4 →
      read_package "WLK" data = Except.error PyError.ArityMismatch) ∧
    (∀ data : List ℚ, data.length ≠ 5 →
      read_package "SWM" data = Except.error PyError.ArityMismatch) ∧
    (∀ data : List ℚ, data.length = 3 → ∃ t, read_package "RUN" data =
      Except.ok t ∧ t.kind = TrainingKind.running) ∧
    (∀ data : List ℚ, data.length = 4 → ∃ t, read_package "WLK" data =
      Except.ok t ∧ t.kind = TrainingKind.sportsWalking) ∧
    (∀ data : List ℚ, data.length = 5 → ∃ t, read_package "SWM" data =
      Except.ok t ∧ t.kind = TrainingKind.swimming) := by
  refine ⟨?_, ?_, ?_, ?_, ?_, ?_, ?_⟩
  · intro wt hwt data
    simp only [List.mem_cons, List.not_mem_nil, or_false, not_or] at hwt
    obtain ⟨h1, h2, h3⟩ := hwt
    simp [read_package, h1, h2, h3, PyError.UnknownWorkoutKind]
  · intro data hlen
    rcases data with _ | ⟨a, _ | ⟨b, _ | ⟨c, _ | ⟨e, rest⟩⟩⟩⟩
    · rfl
    · rfl
    · rfl
    · exact absurd rfl hlen
    · rfl
  · intro data hlen
    rcases data with _ | ⟨a, _ | ⟨b, _ | ⟨c, _ | ⟨e, _ | ⟨f, rest⟩⟩⟩⟩⟩
    · rfl
    · rfl
    · rfl
    · rfl
    · exact absurd rfl hlen
    · rfl
  · intro data hlen
    rcases data with _ | ⟨a, _ | ⟨b, _ | ⟨c, _ | ⟨e, _ | ⟨f, _ | ⟨g, rest⟩⟩⟩⟩⟩⟩
    · rfl
    · rfl
    · rfl
    · rfl
    · rfl
    · exact absurd rfl hlen
    · rfl
  · intro data hlen
    rcases data with _ | ⟨a, _ | ⟨b, _ | ⟨c, _ | ⟨e, rest⟩⟩⟩⟩
    · simp at hlen
    · simp at hlen
    · simp at hlen
    · exact ⟨Training.running a b c, rfl, rfl⟩
    · simp at hlen
  · intro data hlen
    rcases data with _ | ⟨a, _ | ⟨b, _ | ⟨c, _ | ⟨e, _ | ⟨f, rest⟩⟩⟩⟩⟩
    · simp at hlen
    · simp at hlen
    · simp at hlen
    · simp at hlen
    · exact ⟨Training.sportsWalking a b c e, rfl, rfl⟩
    · simp at hlen
  · intro data hlen
    rcases data with _ | ⟨a, _ | ⟨b, _ | ⟨c, _ | ⟨e, _ | ⟨f, _ | ⟨g, rest⟩⟩⟩⟩⟩⟩
    · simp at hlen
    · simp at hlen
    · simp at hlen
    · simp at hlen
    · simp at hlen
    · exact ⟨Training.swimming a b c e f, rfl, rfl⟩
    · simp at hlen

/-- C4 witness: the theorem instantiated at the unknown code `"XYZ"`,
at wrong-arity field lists, and at the three demo packages of the
module's driver. -/
theorem read_package_dispatch_witness :
    read_package "XYZ" [1, 2, 3] = Except.error PyError.UnknownWorkoutKind ∧
    read_package "RUN" [15000, 1] = Except.error PyError.ArityMismatch ∧
    read_package "WLK" [9000, 1, 75] = Except.error PyError.ArityMismatch ∧
    read_package "SWM" [720, 1, 80, 25] = Except.error PyError.ArityMismatch ∧
    (∃ t, read_package "RUN" [15000, 1, 75] = Except.ok t ∧
      t.kind = TrainingKind.running) ∧
    (∃ t, read_package "WLK" [9000, 1, 75, 180] = Except.ok t ∧
      t.kind = TrainingKind.sportsWalking) ∧
    (∃ t, read_package "SWM" [720, 1, 80, 25, 40] = Except.ok t ∧
      t.kind = TrainingKind.swimming) :=
  ⟨read_package_dispatch.1 "XYZ" (by simp) [1, 2, 3],
   read_package_dispatch.2.1 [15000, 1] (by simp),
   read_package_dispatch.2.2.1 [9000, 1, 75] (by simp),
   read_package_dispatch.2.2.2.1 [720, 1, 80, 25] (by simp),
   read_package_dispatch.2.2.2.2.1 [15000, 1, 75] (by simp),
   read_package_dispatch.2.2.2.2.2.1 [9000, 1, 75, 180] (by simp),
   read_package_dispatch.2.2.2.2.2.2 [720, 1, 80, 25, 40] (by simp)⟩
